import Mathlib

/-
Verification of the Interception Query Service (telepresence `pkg/restapi`).

The embedding follows `src/pkg/restapi/api_test.go`: the `AgentState`
implementations (`yesNoClient`, `yesNoCluster`, `textMatcherClient`,
`textMatcherCluster`, `matcherWithMetadata`, `callerIdMatcher`,
`callerIdMatcherCluster`) and the test table of `Test_server_intercepts`.
HTTP headers are modelled as association lists of name/value pairs with
case-insensitive name lookup, matching Go's `http.Header.Get` on ordinary
(token) header names.
-/

set_option autoImplicit false

namespace Restapi

/-- An HTTP header set: a list of (name, value) pairs. Go's `http.Header`
stores canonicalized names; for lookups only case-insensitive equality of
names matters, which is what `headerGet` below implements. -/
def Header : Type := List (String × String)

/-- ASCII lowercase of one character: the case folding Go's
`textproto.CanonicalMIMEHeaderKey` performs on header names. -/
def lowerCh (c : Char) : Char :=
  if 65 ≤ c.toNat ∧ c.toNat ≤ 90 then Char.ofNat (c.toNat + 32) else c

/-- A header name folded to ASCII lowercase, character by character. -/
def lowerName (s : String) : List Char :=
  s.data.map lowerCh

/-- Case-insensitive equality of two header names. -/
def nameMatches (a b : String) : Bool :=
  lowerName a == lowerName b

/-- Lookup in the spirit of Go's `http.Header.Get`: the value of the first
entry whose name matches case-insensitively, or the empty string when no
entry matches (`Get` returns `""` for an absent header). -/
def headerGet (h : Header) (k : String) : String :=
  match List.find? (fun p => nameMatches p.1 k) h with
  | some p => p.2
  | none => ""

/-- Whether a header of the given name is present at all (case-insensitive). -/
def headerPresent (h : Header) (k : String) : Bool :=
  (List.find? (fun p => nameMatches p.1 k) h).isSome

/-- The result payload (`restapi.InterceptInfo`): whether the request is
intercepted, which side answered, and the optional metadata map
(Go `map[string]string`, which may be nil — hence `Option`). -/
structure InterceptInfo where
  intercepted : Bool
  clientSide : Bool
  metadata : Option (List (String × String))
deriving DecidableEq, Repr

/-- The correlation header carrying the intercept id
(`restapi.HeaderInterceptID`). -/
def HeaderInterceptID : String := "x-telepresence-intercept-id"

/-- The correlation header carrying the caller intercept id
(`restapi.HeaderCallerInterceptID`). -/
def HeaderCallerInterceptID : String := "x-telepresence-caller-intercept-id"

/-- `textMatcher.intercepted` from `api_test.go`: true iff for every
required pair `(k, v)` the request header set yields `Get k = v`
(Go iterates the map and returns `false` on the first mismatch, an
order-independent conjunction). -/
def textMatcher.intercepted (t : List (String × String)) (h : Header) : Bool :=
  t.all fun p => headerGet h p.1 == p.2

/-- The `AgentState` implementations of `api_test.go`, plus a decision
failure. The `failing` variant is modelled from the spec: §7 names a
"Decision failure" (`AgentState.InterceptInfo` returning an error); no
implementation under the given sources returns one. -/
inductive AgentState where
  | yesNoClient (yn : Bool)
  | yesNoCluster (yn : Bool)
  | textMatcherClient (t : List (String × String))
  | textMatcherCluster (t : List (String × String))
  | matcherWithMetadata (t : List (String × String))
      (meta : Option (List (String × String)))
  | callerIdMatcher (c : String)
  | callerIdMatcherCluster (c : String)
  | failing (msg : String)
deriving DecidableEq, Repr

/-- The single `AgentState` capability, one case per implementation in
`api_test.go` (the `context.Context` argument, unused by every
implementation, is omitted). `matcherWithMetadata` delegates to
`textMatcherCluster` and then sets `Metadata` on the returned value,
exactly as its Go method does. -/
def AgentState.interceptInfo : AgentState → String → String → Header →
    Except String InterceptInfo
  | .yesNoClient yn, _, _, _ => .ok ⟨yn, true, none⟩
  | .yesNoCluster yn, _, _, _ => .ok ⟨yn, false, none⟩
  | .textMatcherClient t, _, _, h => .ok ⟨textMatcher.intercepted t h, true, none⟩
  | .textMatcherCluster t, _, _, h => .ok ⟨textMatcher.intercepted t h, false, none⟩
  | .matcherWithMetadata t meta, _, _, h =>
      .ok ⟨textMatcher.intercepted t h, false, meta⟩
  | .callerIdMatcher c, callerId, _, _ => .ok ⟨callerId == c, true, none⟩
  | .callerIdMatcherCluster c, callerId, _, _ => .ok ⟨callerId == c, false, none⟩
  | .failing msg, _, _, _ => .error msg

/-- The two endpoints of the Query Server. -/
inductive Endpoint where
  | consumeHere
  | interceptInfo
deriving DecidableEq, Repr

/-- The response body shapes the server can write: a bare JSON boolean
(consume-here), a JSON InterceptInfo object (intercept-info), or the plain
error text written by the server-error path. -/
inductive Body where
  | jsonBool (b : Bool)
  | jsonInfo (i : InterceptInfo)
  | errorText (msg : String)
deriving DecidableEq, Repr

/-- An HTTP response: status code and body. -/
structure Response where
  status : Nat
  body : Body
deriving DecidableEq, Repr

/-- A query request: its path and its header set. -/
structure Request where
  path : String
  headers : Header

/-- Modelled from the spec: the Query Server's request handler
(`pkg/restapi/api.go` is not among the given sources; only its test is).
Per §4.2 both endpoints extract the caller-intercept-id header (empty
string when absent), take the query request's own path, and invoke the
bound AgentState with the full header set; an AgentState error maps to a
server-error status with a plain error body (§7 "Decision failure").
On success, intercept-info answers the full object; consume-here answers
a bare boolean which — per the §8 scenario table, the §9 design note on
the client/cluster inversion, and the asserted test table of
`Test_server_intercepts` — is `Intercepted == ClientSide`, not
`Intercepted` alone. -/
def serve (a : AgentState) (ep : Endpoint) (rq : Request) : Response :=
  match a.interceptInfo (headerGet rq.headers HeaderCallerInterceptID)
      rq.path rq.headers with
  | .error msg => ⟨500, .errorText msg⟩
  | .ok info =>
    match ep with
    | .consumeHere => ⟨200, .jsonBool (info.intercepted == info.clientSide)⟩
    | .interceptInfo => ⟨200, .jsonInfo info⟩

/-- If a header name is absent from the header set, lookup yields the
empty string. -/
theorem headerGet_of_not_present (h : Header) (k : String)
    (hp : headerPresent h k = false) : headerGet h k = "" := by
  unfold headerPresent at hp
  unfold headerGet
  cases hfind : List.find? (fun p => nameMatches p.1 k) h with
  | none => rfl
  | some p => rw [hfind] at hp; simp at hp

/-- C1, counterexample: for the fixed-true cluster sensor with an empty
header set, intercept-info reports `Intercepted = true` while consume-here
answers the bare boolean `false` — the two endpoints disagree, so
consume-here does not return the `Intercepted` field. -/
theorem c1_counterexample :
    serve (.yesNoCluster true) .interceptInfo ⟨"/", []⟩ =
      ⟨200, .jsonInfo ⟨true, false, none⟩⟩ ∧
    serve (.yesNoCluster true) .consumeHere ⟨"/", []⟩ =
      ⟨200, .jsonBool false⟩ ∧
    Body.jsonBool false ≠ Body.jsonBool true :=
  ⟨rfl, rfl, by decide⟩

/-- C1, amended: for every AgentState and every query input, whenever
intercept-info answers an InterceptInfo object `i`, consume-here answers
the bare boolean `i.Intercepted == i.ClientSide`; it equals the
`Intercepted` field exactly when the agent is client-side. -/
theorem c1_consume_here_vs_intercept_info (a : AgentState) (rq : Request)
    (i : InterceptInfo)
    (h : serve a .interceptInfo rq = ⟨200, .jsonInfo i⟩) :
    serve a .consumeHere rq = ⟨200, .jsonBool (i.intercepted == i.clientSide)⟩ := by
  unfold serve at h ⊢
  cases hc : AgentState.interceptInfo a
      (headerGet rq.headers HeaderCallerInterceptID) rq.path rq.headers with
  | error msg => rw [hc] at h; simp at h
  | ok info =>
    rw [hc] at h
    simp only [Response.mk.injEq, Body.jsonInfo.injEq] at h
    rw [h.2]

/-- C1 witness: the amended relation instantiated at the fixed-true
client sensor with an empty header set. -/
theorem c1_witness :
    serve (.yesNoClient true) .consumeHere ⟨"/", []⟩ =
      ⟨200, .jsonBool (InterceptInfo.intercepted ⟨true, true, none⟩ ==
        InterceptInfo.clientSide ⟨true, true, none⟩)⟩ :=
  c1_consume_here_vs_intercept_info (.yesNoClient true) ⟨"/", []⟩
    ⟨true, true, none⟩ rfl

/-- C2: with an empty header set (and any path), a server bound to the
fixed-true client-side boolean sensor answers consume-here with JSON
`true`, and a server bound to the fixed-false cluster-side boolean sensor
also answers consume-here with JSON `true`. -/
theorem c2_boolean_sensor_scenarios (p : String) :
    serve (.yesNoClient true) .consumeHere ⟨p, []⟩ = ⟨200, .jsonBool true⟩ ∧
    serve (.yesNoCluster false) .consumeHere ⟨p, []⟩ = ⟨200, .jsonBool true⟩ :=
  ⟨rfl, rfl⟩

/-- C2 witness: the two scenarios at the concrete path "/". -/
theorem c2_witness :
    serve (.yesNoClient true) .consumeHere ⟨"/", []⟩ = ⟨200, .jsonBool true⟩ ∧
    serve (.yesNoCluster false) .consumeHere ⟨"/", []⟩ = ⟨200, .jsonBool true⟩ :=
  c2_boolean_sensor_scenarios "/"

/-- C3: for every AgentState and every query input, whenever the bound
AgentState produces an InterceptInfo `i`, consume-here answers the bare
boolean `i.Intercepted == i.ClientSide` — `Intercepted` itself for a
client-side agent, its negation for a cluster-side agent. -/
theorem c3_consume_here_is_intercepted_beq_clientside (a : AgentState)
    (rq : Request) (i : InterceptInfo)
    (h : a.interceptInfo (headerGet rq.headers HeaderCallerInterceptID)
      rq.path rq.headers = .ok i) :
    serve a .consumeHere rq = ⟨200, .jsonBool (i.intercepted == i.clientSide)⟩ := by
  unfold serve
  rw [h]

/-- C3 witness: the fixed-true cluster sensor with an empty header set;
the answer is `true == false`, i.e. `false`. -/
theorem c3_witness :
    serve (.yesNoCluster true) .consumeHere ⟨"/", []⟩ =
      ⟨200, .jsonBool (InterceptInfo.intercepted ⟨true, false, none⟩ ==
        InterceptInfo.clientSide ⟨true, false, none⟩)⟩ :=
  c3_consume_here_is_intercepted_beq_clientside (.yesNoCluster true)
    ⟨"/", []⟩ ⟨true, false, none⟩ rfl

/-- C4, counterexample: a required header whose required value is the
empty string. With an empty header set the required header is not present,
yet the matcher reports `Intercepted = true` (Go's `Header.Get` returns
`""` for an absent header, which equals the required value), contradicting
"any single missing required header makes the result false". -/
theorem c4_counterexample :
    AgentState.interceptInfo (.textMatcherClient [("required-header", "")])
      "" "/" [] = .ok ⟨true, true, none⟩ ∧
    headerPresent [] "required-header" = false :=
  ⟨rfl, rfl⟩

/-- C4, amended: the matcher answers `Intercepted = true` iff for every
required pair the request's header value — the empty string when the
header is absent — equals the required value exactly; a missing required
header whose required value is non-empty, or any value mismatch, forces
`false` even when all other required headers match; and headers outside
the required mapping never change the result (two header sets agreeing on
the looked-up values of the required names get the same answer). -/
theorem c4_text_matcher_semantics (t : List (String × String)) (h : Header) :
    (textMatcher.intercepted t h = true ↔ ∀ p ∈ t, headerGet h p.1 = p.2) ∧
    (∀ p ∈ t, p.2 ≠ "" → headerPresent h p.1 = false →
      textMatcher.intercepted t h = false) ∧
    (∀ h' : Header, (∀ p ∈ t, headerGet h p.1 = headerGet h' p.1) →
      textMatcher.intercepted t h = textMatcher.intercepted t h') := by
  refine ⟨?_, ?_, ?_⟩
  · unfold textMatcher.intercepted
    rw [List.all_eq_true]
    constructor
    · intro hall p hp
      exact eq_of_beq (hall p hp)
    · intro hall p hp
      exact beq_iff_eq.mpr (hall p hp)
  · intro p hp hne habs
    unfold textMatcher.intercepted
    rw [List.all_eq_false]
    refine ⟨p, hp, ?_⟩
    rw [headerGet_of_not_present h p.1 habs]
    simp [BEq.beq]
    intro heq
    exact hne heq.symm
  · intro h' hagree
    unfold textMatcher.intercepted
    induction t with
    | nil => rfl
    | cons p ps ih =>
      rw [List.all_cons, List.all_cons,
        hagree p (List.mem_cons_self p ps),
        ih fun q hq => hagree q (List.mem_cons_of_mem p hq)]

/-- C4 witness: the amended characterization applied at a concrete
matcher and header set — both required headers match (one of them under a
different name case) and an unrelated extra header is present. -/
theorem c4_witness :
    textMatcher.intercepted [("header-a", "value-a"), ("header-b", "value-b")]
      [("Header-A", "value-a"), ("header-b", "value-b"), ("header-c", "value-c")]
      = true :=
  ((c4_text_matcher_semantics
      [("header-a", "value-a"), ("header-b", "value-b")]
      [("Header-A", "value-a"), ("header-b", "value-b"), ("header-c", "value-c")]).1).mpr
    (by decide)

/-- C5: the caller-identity matcher reports `Intercepted` true iff the
supplied callerInterceptID equals the configured string exactly
(string equality, hence case-sensitive and total), and its whole answer is
independent of the path and of the header set. -/
theorem c5_caller_id_matcher (c cid p : String) (h : Header)
    (p' : String) (h' : Header) :
    AgentState.interceptInfo (.callerIdMatcher c) cid p h =
      .ok ⟨cid == c, true, none⟩ ∧
    ((cid == c) = true ↔ cid = c) ∧
    AgentState.interceptInfo (.callerIdMatcher c) cid p h =
      AgentState.interceptInfo (.callerIdMatcher c) cid p' h' :=
  ⟨rfl, beq_iff_eq, rfl⟩

/-- C5 witness: the matcher configured with "abc:123", queried with the
same caller id but a different path and extra headers: intercepted. -/
theorem c5_witness :
    AgentState.interceptInfo (.callerIdMatcher "abc:123") "abc:123" "/" [] =
      .ok ⟨true, true, none⟩ :=
  (c5_caller_id_matcher "abc:123" "abc:123" "/" [] "/other"
    [("a", "b")]).1.trans (by rfl)

/-- C6, counterexample: the metadata matcher requiring
`{"k": "v"}` with metadata `{"a": "A"}`, queried with an empty header set:
the wrapped matcher does not match (`Intercepted = false`), yet the result
carries the configured metadata — its Go method sets `ret.Metadata`
unconditionally, so a false result does get the configured mapping
attached. -/
theorem c6_counterexample :
    AgentState.interceptInfo
      (.matcherWithMetadata [("k", "v")] (some [("a", "A")])) "" "/" [] =
      .ok ⟨false, false, some [("a", "A")]⟩ ∧
    (some [("a", "A")] : Option (List (String × String))) ≠ none :=
  ⟨rfl, by decide⟩

/-- C6, amended: the metadata-enriched matcher always answers with the
wrapped exact multi-header matcher's `Intercepted` verdict, `ClientSide =
false`, and `Metadata` equal to the configured mapping — on a match the
metadata equals the configured mapping exactly, as claimed, but on a
non-match the same configured mapping is attached as well (the attachment
is unconditional, not gated on the match). -/
theorem c6_matcher_with_metadata (t : List (String × String))
    (meta : Option (List (String × String))) (cid p : String) (h : Header) :
    AgentState.interceptInfo (.matcherWithMetadata t meta) cid p h =
      .ok ⟨textMatcher.intercepted t h, false, meta⟩ :=
  rfl

/-- C6 witness: the matching scenario of the test table — required header
present with the required value, metadata `{"a": "A"}` attached. -/
theorem c6_witness :
    AgentState.interceptInfo
      (.matcherWithMetadata [(HeaderInterceptID, "abc:123")] (some [("a", "A")]))
      "" "/" [(HeaderInterceptID, "abc:123")] =
      .ok ⟨textMatcher.intercepted [(HeaderInterceptID, "abc:123")]
        [(HeaderInterceptID, "abc:123")], false, some [("a", "A")]⟩ :=
  c6_matcher_with_metadata [(HeaderInterceptID, "abc:123")]
    (some [("a", "A")]) "" "/" [(HeaderInterceptID, "abc:123")]

/-- C7: the `ClientSide` field of every InterceptInfo a given AgentState
produces is the same across any two invocations, whatever the caller ids,
paths and header sets — it is fixed by the AgentState variant itself. -/
theorem c7_clientside_constant (a : AgentState)
    (cid₁ p₁ : String) (h₁ : Header) (cid₂ p₂ : String) (h₂ : Header)
    (i₁ i₂ : InterceptInfo)
    (e₁ : a.interceptInfo cid₁ p₁ h₁ = .ok i₁)
    (e₂ : a.interceptInfo cid₂ p₂ h₂ = .ok i₂) :
    i₁.clientSide = i₂.clientSide := by
  cases a <;>
    simp only [AgentState.interceptInfo, Except.ok.injEq,
      reduceCtorEq] at e₁ e₂ <;>
    rw [← e₁, ← e₂]

/-- C7 witness: one exact-matcher server, two different requests (one
matching, one not): both answers carry the same `ClientSide`. -/
theorem c7_witness :
    InterceptInfo.clientSide ⟨true, true, none⟩ =
      InterceptInfo.clientSide ⟨false, true, none⟩ :=
  c7_clientside_constant (.textMatcherClient [("k", "v")])
    "" "/" [("k", "v")] "cid" "/other" []
    ⟨true, true, none⟩ ⟨false, true, none⟩ rfl rfl

/-- C9: whenever the bound AgentState's decision call returns an error,
both endpoints answer status 500 with the plain error text as body — never
a body shaped like a JSON boolean or a JSON InterceptInfo object, and in
particular never `Intercepted = false` with status 200. -/
theorem c9_agent_error_maps_to_server_error (a : AgentState) (ep : Endpoint)
    (rq : Request) (msg : String)
    (he : a.interceptInfo (headerGet rq.headers HeaderCallerInterceptID)
      rq.path rq.headers = .error msg) :
    serve a ep rq = ⟨500, .errorText msg⟩ ∧
    (∀ b : Bool, (serve a ep rq).body ≠ .jsonBool b) ∧
    (∀ i : InterceptInfo, (serve a ep rq).body ≠ .jsonInfo i) := by
  have hs : serve a ep rq = ⟨500, .errorText msg⟩ := by
    unfold serve
    rw [he]
  refine ⟨hs, ?_, ?_⟩
  · intro b
    rw [hs]
    simp
  · intro i
    rw [hs]
    simp

/-- C9 witness: a failing AgentState queried through consume-here:
status 500, error-text body. -/
theorem c9_witness :
    serve (.failing "backing state unavailable") .consumeHere ⟨"/", []⟩ =
      ⟨500, .errorText "backing state unavailable"⟩ :=
  (c9_agent_error_maps_to_server_error (.failing "backing state unavailable")
    .consumeHere ⟨"/", []⟩ "backing state unavailable" rfl).1

/-- C10: a query whose header set contains neither correlation header is
not an error: both lookups yield the empty string (so the AgentState is
invoked with the empty string for each absent identifier), and whenever
the AgentState call with that empty caller id succeeds, either endpoint
answers 200 with its well-formed body for the produced InterceptInfo. -/
theorem c10_absent_correlation_headers (a : AgentState) (ep : Endpoint)
    (rq : Request) (i : InterceptInfo)
    (habs₁ : headerPresent rq.headers HeaderCallerInterceptID = false)
    (habs₂ : headerPresent rq.headers HeaderInterceptID = false)
    (hok : a.interceptInfo "" rq.path rq.headers = .ok i) :
    headerGet rq.headers HeaderCallerInterceptID = "" ∧
    headerGet rq.headers HeaderInterceptID = "" ∧
    serve a ep rq = ⟨200, match ep with
      | .consumeHere => .jsonBool (i.intercepted == i.clientSide)
      | .interceptInfo => .jsonInfo i⟩ := by
  have hg₁ := headerGet_of_not_present rq.headers HeaderCallerInterceptID habs₁
  have hg₂ := headerGet_of_not_present rq.headers HeaderInterceptID habs₂
  refine ⟨hg₁, hg₂, ?_⟩
  unfold serve
  rw [hg₁, hok]
  cases ep <;> rfl

/-- C10 witness: the fixed-true client sensor queried with one unrelated
header and no correlation headers: both lookups give `""` and consume-here
answers 200 with JSON `true`. -/
theorem c10_witness :
    headerGet [("other", "x")] HeaderCallerInterceptID = "" ∧
    headerGet [("other", "x")] HeaderInterceptID = "" ∧
    serve (.yesNoClient true) .consumeHere ⟨"/", [("other", "x")]⟩ =
      ⟨200, .jsonBool ((true : Bool) == (true : Bool))⟩ :=
  c10_absent_correlation_headers (.yesNoClient true) .consumeHere
    ⟨"/", [("other", "x")]⟩ ⟨true, true, none⟩ (by decide) (by decide) rfl

end Restapi
